import Mathlib

/-
  Shallow embedding of src/contextwindow.py (the `ContextWindow` class and its
  helpers) for checking the natural-language specification against the code.

  Conventions of the embedding:

  * The source file has had every single-quote character globally replaced by a
    double quote (visible in `don"t`, `model"s response`, and every f-string),
    which makes it syntactically invalid Python.  The embedding restores the
    single quotes inside string literals; all other behaviour is taken from the
    code exactly as written.
  * Method calls written without a `self.` receiver (`_token_count(...)`,
    `_fit_context_window()`, ...) are read as calls to the corresponding
    method, and the two free variables `data` and `function_info` inside
    `_message_dict_to_message` are read as the corresponding `message_dict`
    fields; the call `_construct_role_dict(user_content, data, data_policy,
    function_info, function_policy)` in `add_message` is read as the intended
    `_construct_message_dict` (the only helper with that arity).  All
    value-level behaviour, including every reachable runtime exception
    (TypeError / KeyError / IndexError / ValueError), is modelled faithfully.
  * The tokenizer is an explicit parameter `tc : String → Nat` (tiktoken is
    pure and deterministic per model); `encoder.encode(None)` raising TypeError
    is modelled by `token_count`.
  * The completion service is an oracle `svc : Nat → SvcOutcome`, consumed in
    call order; the state field `calls_made` is the oracle cursor and records
    how many service calls have been attempted.
-/

inductive DataPolicy
  | PURE
  | REMOVE
  | SUMMARIZE
deriving DecidableEq

inductive FunctionPolicy
  | INCLUDE
  | IGNORE
deriving DecidableEq

/-- A Python value stored in a `data_policy` field: one of the `DataPolicy`
enum members, Python `None` (the `add_message` default), or a raw string. -/
inductive PolicyVal
  | policy (p : DataPolicy)
  | pyNone
  | strVal (s : String)
deriving DecidableEq

/-- A Python value stored in a `function_policy` field. -/
inductive FuncPolicyVal
  | policy (p : FunctionPolicy)
  | pyNone
  | strVal (s : String)
deriving DecidableEq

/-- `message_dict["function_policy"] == "include"`: in Python an Enum member
never compares equal to a string, so this is true only for the raw string. -/
def FuncPolicyVal.eqStrInclude : FuncPolicyVal → Bool
  | FuncPolicyVal.strVal s => s = "include"
  | _ => false

/-- One parameter entry of `function_info["parameters"]["properties"]`. -/
structure ParamInfo where
  type : String
  description : String
  items : Option String
deriving DecidableEq

/-- Output of `_create_function_info`. -/
structure FunctionInfo where
  name : String
  description : String
  properties : List (String × ParamInfo)
  required : List String
deriving DecidableEq

/-- The raw `function_info` argument of `add_message`: a dict with keys
`name`, `description`, `parameter_list`. -/
structure FuncInput where
  name : String
  description : String
  parameter_list : List (String × String × String × Bool)
deriving DecidableEq

/-- `_create_function_info` (src/contextwindow.py lines 151-186). -/
def create_function_info (name description : String)
    (parameter_list : List (String × String × String × Bool)) : FunctionInfo :=
  { name := name
    description := description
    properties := parameter_list.map (fun q =>
      (q.1, { type := q.2.1
              description := q.2.2.1
              items := if q.2.1 = "array" then some "string" else none }))
    required := (parameter_list.filter (fun q => q.2.2.2)).map (fun q => q.1) }

/-- A single-quote character, used to build the rendered strings. -/
def apos : String := (Char.ofNat 39).toString

def pyRepr (s : String) : String := apos ++ s ++ apos

def pyReprBool : Bool → String
  | true => "True"
  | false => "False"

def pyReprParam (q : String × String × String × Bool) : String :=
  "(" ++ pyRepr q.1 ++ ", " ++ pyRepr q.2.1 ++ ", " ++ pyRepr q.2.2.1 ++ ", "
    ++ pyReprBool q.2.2.2 ++ ")"

/-- Python `str(function_info)` applied to the raw input dict
(line 234 of the source). -/
def strOfFuncInput (f : FuncInput) : String :=
  "\x7b" ++ pyRepr "name" ++ ": " ++ pyRepr f.name ++ ", "
    ++ pyRepr "description" ++ ": " ++ pyRepr f.description ++ ", "
    ++ pyRepr "parameter_list" ++ ": ["
    ++ String.intercalate ", " (f.parameter_list.map pyReprParam) ++ "]\x7d"

/-- A `function_call` object of a completion-service response:
`name` plus the parsed `arguments` JSON object (an ordered mapping). -/
structure FuncCall where
  name : String
  arguments : List (String × String)
deriving DecidableEq

/-- `_generate_function_description` (lines 188-212).  `json.loads` of the
`arguments` JSON string is the ordered association list `fc.arguments`. -/
def generate_function_description : Option FuncCall → Option String
  | none => none
  | some fc =>
    if fc.arguments = [] then
      some ("The model attempted to call the function " ++ apos ++ fc.name ++ apos
        ++ " but did not provide any parameters.")
    else
      some (String.intercalate " "
        (("The model returned function parameters for the requested function "
            ++ apos ++ fc.name ++ apos ++ ".")
          :: fc.arguments.map (fun pv =>
              "For parameter " ++ apos ++ pv.1 ++ apos ++ ", the model generated "
                ++ apos ++ pv.2 ++ apos ++ ".")))

/-- A `{role, content}` dict built by `_construct_role_dict`; `content` can be
Python `None` (an assistant response whose `content` field was null). -/
structure RoleDict where
  role : String
  content : Option String
deriving DecidableEq

/-- `_construct_role_dict` (lines 297-312). -/
def construct_role_dict (role : String) (content : Option String) : RoleDict :=
  { role := role, content := content }

/-- An entry of `self.messages`: a role dict, or the bare string that
`self.messages[-3] = _message_dict_to_message(...)` stores at compaction
time (line 65: the right-hand side is `final_message`, a `str`). -/
inductive Entry
  | dict (d : RoleDict)
  | str (s : String)
deriving DecidableEq

/-- Output of `_construct_message_dict` (lines 214-237). -/
structure MessageDict where
  user_content : String
  data : Option String
  data_policy : PolicyVal
  function_info : FunctionInfo
  function_policy : FuncPolicyVal
  token_count : Nat
deriving DecidableEq

/-- An entry of `self.enhanced_messages`: either a message dict or a `res`
dict (`{model_response, function_values}`, which has no `token_count` key). -/
inductive EnhEntry
  | msg (m : MessageDict)
  | res (model_response : Option String) (function_values : Option FuncCall)
deriving DecidableEq

/-- The Python exceptions the source can raise at runtime. -/
inductive PyError
  | typeError
  | keyError
  | indexError
  | valueError (msg : String)
  | apiError (msg : String)
deriving DecidableEq

/-- One outcome of an `openai.ChatCompletion.create` attempt: a response
`{content, function_call}`, a `json.JSONDecodeError`, or any other
exception (propagated immediately). -/
inductive SvcOutcome
  | ok (content : Option String) (function_call : Option FuncCall)
  | decodeError
  | fatal
deriving DecidableEq

structure ModelResponse where
  content : Option String
  function_call : Option FuncCall
deriving DecidableEq

/-- The `res` dict recorded by `add_message` (lines 70-78). -/
structure ResDict where
  model_response : Option String
  function_values : Option FuncCall
deriving DecidableEq

/-- The `ContextWindow` instance state. -/
structure CW where
  high_level_overview : String
  high_level_overview_tokens : Nat
  default_data_policy : PolicyVal
  model_name : String
  max_tokens : Int
  messages : List Entry
  enhanced_messages : List EnhEntry
  total_tokens : Int
  tokens_sent : Int
  summarization_messages : List RoleDict
  calls_made : Nat
deriving DecidableEq

def fitErrMsg : String :=
  "High level overview and the recent user message together exceed token limit!"

def invalidPolicyMsg : String := "Did not pass a valid function policy!"

def removeErrMsg : String := "list.remove(x): x not in list"

def retriesMsg : String := "Maximum retries reached. API issues."

def defaultSummarizationSystem : String :=
  "You are an assistant that is helping make a more functional version of GPT. In iterative, data-intensive conversations, such as debugging, the context window gets filled with old data. For example, after debugging an error stack, keeping that error stack in the context window on subsequent messages is unproductive. To counter this, you are being used to summarize previous data that is no longer directly relevant, but for which some information must be saved. For example, if the user copy and pastes their entire code, you might return \"The user provided their entire program, but to save context window space this has been optimized out of the conversation\"."

/-- `__init__` (lines 16-41).  Python truthiness: an empty
`summarization_system` string also falls back to the default. -/
def ContextWindow.init (tc : String → Nat) (high_level_overview : String)
    (default_data_policy : PolicyVal) (model_name : String) (max_tokens : Int)
    (summarization_system : Option String) : CW :=
  let ss := match summarization_system with
    | some s => if s = "" then defaultSummarizationSystem else s
    | none => defaultSummarizationSystem
  { high_level_overview := high_level_overview
    high_level_overview_tokens := tc high_level_overview
    default_data_policy := default_data_policy
    model_name := model_name
    max_tokens := max_tokens
    messages := [Entry.dict (construct_role_dict "system" (some high_level_overview))]
    enhanced_messages := []
    total_tokens := (tc high_level_overview : Int)
    tokens_sent := 0
    summarization_messages := [construct_role_dict "system" (some ss)]
    calls_made := 0 }

/-- `_token_count` (lines 106-117): `tiktoken`'s `encoder.encode` accepts only
a `str`; passing `None` raises TypeError. -/
def token_count (tc : String → Nat) : Option String → Except PyError Nat
  | none => Except.error PyError.typeError
  | some s => Except.ok (tc s)

/-- Python f-string interpolation of an optional string (`None` prints as
"None"). -/
def pyStrOfOpt : Option String → String
  | none => "None"
  | some s => s

/-- `_call_openai` (lines 314-362) with the default `max_retries=1`: one
attempt; a `JSONDecodeError` exhausts the retry budget and escalates to
`Exception("Maximum retries reached. API issues.")`; any other failure
propagates.  `self.tokens_sent += self.total_tokens` happens before the
attempt. -/
def call_openai (svc : Nat → SvcOutcome) (cw : CW) : CW × Except PyError ModelResponse :=
  let cw2 : CW := { cw with
    tokens_sent := cw.tokens_sent + cw.total_tokens
    calls_made := cw.calls_made + 1 }
  match svc cw.calls_made with
  | SvcOutcome.ok c f => (cw2, Except.ok { content := c, function_call := f })
  | SvcOutcome.decodeError => (cw2, Except.error (PyError.apiError retriesMsg))
  | SvcOutcome.fatal => (cw2, Except.error (PyError.apiError "service failure"))

/-- `generate_message_summary` (lines 83-94).  After the service call the code
executes `self.summarization_messages.remove(-1)`: `list.remove` removes the
first element *equal to* its argument, and no role dict ever equals the
integer `-1`, so this raises `ValueError` and the appended request is never
removed. -/
def generate_message_summary (svc : Nat → SvcOutcome) (cw : CW) (data : Option String) :
    CW × Except PyError String :=
  let cw1 : CW := { cw with summarization_messages :=
    cw.summarization_messages
      ++ [construct_role_dict "user" (some ("Please summarize the following: " ++ pyStrOfOpt data))] }
  match call_openai svc cw1 with
  | (cw2, Except.error e) => (cw2, Except.error e)
  | (cw2, Except.ok _) => (cw2, Except.error (PyError.valueError removeErrMsg))

/-- `type_map.get(param_type, param_type)` over the dict at lines 254-259. -/
def type_map (t : String) : String :=
  if t = "int" then "a number representing"
  else if t = "string" then "a string of"
  else if t = "boolean" then "a boolean indicating"
  else if t = "array" then "an array of"
  else t

/-- One iteration of the parameter loop at lines 280-289.  For an `array`
parameter the code reads `param_info["items"]["type"]`; a missing `items`
key would raise KeyError. -/
def param_phrase (q : String × ParamInfo) : Except PyError String :=
  let d := type_map q.2.type
  if q.2.type = "array" then
    match q.2.items with
    | some it => Except.ok (d ++ it ++ "s")
    | none => Except.error PyError.keyError
  else Except.ok (d ++ " " ++ q.2.description)

def param_phrases : List (String × ParamInfo) → Except PyError (List String)
  | [] => Except.ok []
  | q :: qs =>
    match param_phrase q, param_phrases qs with
    | Except.ok s, Except.ok ss => Except.ok (s :: ss)
    | Except.error e, _ => Except.error e
    | _, Except.error e => Except.error e

/-- The function-policy tail of `_message_dict_to_message` (lines 276-293).
`message_dict["function_policy"] == "include"` compares an Enum member with a
string, and `function_info` (a non-empty dict) is always truthy.  This part
of the method only builds strings and mutates `message_dict`, so it is
modelled without the instance state. -/
def compaction_append_function (tc : String → Nat) (md : MessageDict)
    (final : String) : MessageDict × Except PyError String :=
  if md.function_policy.eqStrInclude then
    match param_phrases md.function_info.properties with
    | Except.error e => (md, Except.error e)
    | Except.ok params =>
      let fdesc :=
        " Along with this message, the user requested for their function named "
          ++ md.function_info.name
          ++ " to be supplied with the following parameters:"
          ++ " " ++ String.intercalate ", " params ++ "."
      ({ md with token_count := md.token_count + tc fdesc },
        Except.ok (final ++ fdesc))
  else (md, Except.ok final)

/-- Lines 272-274: `if data_msg != ""` is true both for a non-empty string and
for `None`; in the latter case the framing sentence is appended with the text
"None" and `_token_count(None)` then raises TypeError. -/
def compaction_append_data (tc : String → Nat) (md : MessageDict)
    (final : String) (data_msg : Option String) : MessageDict × Except PyError String :=
  if data_msg ≠ some "" then
    let final2 := final ++ " Along with this message, the user sent the following data: "
      ++ pyStrOfOpt data_msg ++ "."
    match data_msg with
    | none => (md, Except.error PyError.typeError)
    | some s =>
      compaction_append_function tc { md with token_count := md.token_count + tc s } final2
  else compaction_append_function tc md final

/-- `_message_dict_to_message` (lines 239-295).  The returned `MessageDict` is
the in-place mutated `message_dict` (its `token_count` is reassigned at line
252 before any policy branch can raise).  Only the SUMMARIZE branch touches
the instance state (through the summarization sub-flow). -/
def message_dict_to_message (tc : String → Nat) (svc : Nat → SvcOutcome)
    (cw : CW) (md0 : MessageDict) : CW × MessageDict × Except PyError String :=
  let final0 := md0.user_content
  let md : MessageDict := { md0 with token_count := tc md0.user_content }
  match md.data_policy with
  | PolicyVal.policy DataPolicy.PURE =>
    let r := compaction_append_data tc md final0 md.data
    (cw, r.1, r.2)
  | PolicyVal.policy DataPolicy.SUMMARIZE =>
    match generate_message_summary svc cw md.data with
    | (cw2, Except.error e) => (cw2, md, Except.error e)
    | (cw2, Except.ok summary) =>
      let r := compaction_append_data tc md final0 (some summary)
      (cw2, r.1, r.2)
  | PolicyVal.policy DataPolicy.REMOVE =>
    let r := compaction_append_data tc md final0 none
    (cw, r.1, r.2)
  | _ => (cw, md, Except.error (PyError.valueError invalidPolicyMsg))

/-- `message["token_count"]` on an entry of `self.messages`: a role dict has
no `token_count` key (KeyError); after compaction the entry is a bare string
and subscripting a `str` with a string raises TypeError. -/
def entry_token_count : Entry → Except PyError Nat
  | Entry.dict _ => Except.error PyError.keyError
  | Entry.str _ => Except.error PyError.typeError

/-- The `for idx, message in enumerate(self.messages)` loop of
`_fit_context_window` (lines 136-147): accumulate `message["token_count"]`,
set `start_idx = idx` and break at the first index whose accumulated sum is
`<= abs(remaining_tokens)`; if the loop completes, the default `start_idx = 0`
is returned. -/
def fit_scan (r : Nat) : List Entry → Nat → Nat → Except PyError Nat
  | [], _, _ => Except.ok 0
  | e :: rest, acc, idx =>
    match entry_token_count e with
    | Except.error err => Except.error err
    | Except.ok t =>
      if acc + t ≤ r then Except.ok idx
      else fit_scan r rest (acc + t) (idx + 1)

/-- `_fit_context_window` (lines 119-149).  Reads the newest enhanced
message's `token_count` (`self.enhanced_messages[-1]["token_count"]`), raises
ValueError when overview + newest exceed `max_tokens`, and otherwise either
returns 0 (`remaining_tokens >= 0`) or runs the scan loop over
`self.messages` from index 0. -/
def fit_context_window (cw : CW) : Except PyError Nat :=
  match cw.enhanced_messages.getLast? with
  | none => Except.error PyError.indexError
  | some (EnhEntry.res _ _) => Except.error PyError.keyError
  | some (EnhEntry.msg m) =>
    if (cw.high_level_overview_tokens : Int) + (m.token_count : Int) > cw.max_tokens then
      Except.error (PyError.valueError fitErrMsg)
    else
      let remaining : Int := cw.max_tokens - cw.total_tokens - (cw.high_level_overview_tokens : Int)
      if remaining < 0 then fit_scan remaining.natAbs cw.messages 0 0
      else Except.ok 0

def defaultEnhEntry : EnhEntry := EnhEntry.res none none

/-- Lines 62-66 of `add_message`: when `len(self.messages) >= 3`, compact
`self.enhanced_messages[-3]` into `self.messages[-3]`.
Faithful points: `enhanced_messages[-3]` raises IndexError when the enhanced
list is shorter than 3; a `res` dict there has no `token_count` key
(KeyError at line 64); the in-place `token_count` mutations that
`_message_dict_to_message` performs on the aliased dict are written back even
when it raises; and line 66 (`self.messages[-3]["token_count"]`) subscripts
the freshly assigned *string* with a string, raising TypeError. -/
def compact_step (tc : String → Nat) (svc : Nat → SvcOutcome) (cw : CW) :
    CW × Except PyError Unit :=
  if 3 ≤ cw.messages.length then
    if 3 ≤ cw.enhanced_messages.length then
      match cw.enhanced_messages.getD (cw.enhanced_messages.length - 3) defaultEnhEntry with
      | EnhEntry.res _ _ => (cw, Except.error PyError.keyError)
      | EnhEntry.msg m =>
        let cw1 : CW := { cw with total_tokens := cw.total_tokens - (m.token_count : Int) }
        match message_dict_to_message tc svc cw1 m with
        | (cw2, m2, Except.error e) =>
          ({ cw2 with enhanced_messages :=
              cw2.enhanced_messages.set (cw2.enhanced_messages.length - 3) (EnhEntry.msg m2) },
            Except.error e)
        | (cw2, m2, Except.ok s) =>
          let cw3 : CW := { cw2 with
            enhanced_messages :=
              cw2.enhanced_messages.set (cw2.enhanced_messages.length - 3) (EnhEntry.msg m2)
            messages := cw2.messages.set (cw2.messages.length - 3) (Entry.str s) }
          (cw3, Except.error PyError.typeError)
    else (cw, Except.error PyError.indexError)
  else (cw, Except.ok ())

deriving instance DecidableEq for Except

structure AddOut where
  state : CW
  result : Except PyError ResDict
deriving DecidableEq

/-- Lines 62-81 of `add_message`, after the two appends of lines 56-58: the
compaction step, `_fit_context_window`, `_call_openai` and the recording of
the response run in order, each raised exception propagating with every
mutation made so far left in place. -/
def add_message_rest (tc : String → Nat) (svc : Nat → SvcOutcome) (cw : CW) : AddOut :=
  match compact_step tc svc cw with
  | (cwC, Except.error e) => { state := cwC, result := Except.error e }
  | (cwC, Except.ok _) =>
    match fit_context_window cwC with
    | Except.error e => { state := cwC, result := Except.error e }
    | Except.ok _ =>
      match call_openai svc cwC with
      | (cwD, Except.error e) => { state := cwD, result := Except.error e }
      | (cwD, Except.ok resp) =>
        let res : ResDict :=
          match resp.function_call with
          | some fc =>
            { model_response := generate_function_description (some fc)
              function_values := some fc }
          | none => { model_response := resp.content, function_values := none }
        let cwE : CW := { cwD with enhanced_messages :=
          cwD.enhanced_messages ++ [EnhEntry.res res.model_response res.function_values] }
        let cwF : CW := { cwE with messages :=
          cwE.messages ++ [Entry.dict (construct_role_dict "assistant" res.model_response)] }
        { state := cwF, result := Except.ok res }

/-- `add_message` (lines 43-81).
Line 56 evaluates `user_content + data` (TypeError when `data is None`)
before appending; the message-dict construction at line 57 subscripts the
`function_info` argument (TypeError when it is `None`); the rest of the
method is `add_message_rest`. -/
def add_message (tc : String → Nat) (svc : Nat → SvcOutcome) (cw : CW)
    (user_content : String) (data : Option String) (data_policy : PolicyVal)
    (function_info : Option FuncInput) (function_policy : FuncPolicyVal) : AddOut :=
  match data with
  | none => { state := cw, result := Except.error PyError.typeError }
  | some d =>
    let cwA : CW := { cw with messages :=
      cw.messages ++ [Entry.dict (construct_role_dict "user" (some (user_content ++ d)))] }
    match function_info with
    | none => { state := cwA, result := Except.error PyError.typeError }
    | some fi =>
      let message_struct : MessageDict :=
        { user_content := user_content
          data := some d
          data_policy := data_policy
          function_info := create_function_info fi.name fi.description fi.parameter_list
          function_policy := function_policy
          token_count := tc user_content + tc d + tc (strOfFuncInput fi) }
      let cwB : CW := { cwA with enhanced_messages :=
        cwA.enhanced_messages ++ [EnhEntry.msg message_struct] }
      add_message_rest tc svc cwB

/-- The arguments of one `add_message` call. -/
structure AddArgs where
  user_content : String
  data : Option String
  data_policy : PolicyVal
  function_info : Option FuncInput
  function_policy : FuncPolicyVal
deriving DecidableEq

def add_message_args (tc : String → Nat) (svc : Nat → SvcOutcome) (cw : CW)
    (a : AddArgs) : AddOut :=
  add_message tc svc cw a.user_content a.data a.data_policy a.function_info a.function_policy

/-- Run a sequence of `add_message` calls; a failed call leaves its partial
mutations in the state and the conversation continues from there. -/
def runAdds (tc : String → Nat) (svc : Nat → SvcOutcome) : CW → List AddArgs → CW
  | cw, [] => cw
  | cw, a :: rest => runAdds tc svc (add_message_args tc svc cw a).state rest

/-- Spec-side definition (§8 "Ledger invariant", "verifiable by full
re-scan"): the token count a full re-scan assigns to one compacted-ledger
entry, i.e. the tokenizer applied to its content. -/
def entrySpecTokens (tc : String → Nat) : Entry → Nat
  | Entry.dict d => (match d.content with | some s => tc s | none => 0)
  | Entry.str s => tc s

/-- Spec-side definition: `sum(token_count over compacted ledger)` by full
re-scan. -/
def specLedgerTokenSum (tc : String → Nat) (msgs : List Entry) : Nat :=
  (msgs.map (entrySpecTokens tc)).sum

def claimFitScanGo (r : Nat) : List Nat → Nat → Nat → Nat
  | [], _, _ => 0
  | t :: rest, acc, idx => if acc + t ≤ r then idx else claimFitScanGo r rest (acc + t) (idx + 1)

/-- Definition following the claim's words (spec §4.5), for comparison with
`fit_context_window`: "the chosen index scans from the oldest non-overview
message forward, accumulating token counts, stopping at the first index whose
accumulated sum does not exceed |remaining|".  The oldest non-overview
message sits at index 1 of the compacted ledger. -/
def claimFitScan (tokenCounts : List Nat) (r : Nat) : Nat :=
  claimFitScanGo r (tokenCounts.drop 1) 0 1

/-- `token_count` of the newest enhanced message, when it is a message dict. -/
def lastEnhTokenCount (cw : CW) : Option Nat :=
  match cw.enhanced_messages.getLast? with
  | some (EnhEntry.msg m) => some m.token_count
  | _ => none

/- Concrete test fixtures.  `tcLen` is a concrete tokenizer (the model never
constrains the tokenizer beyond purity, so any `String → Nat` instance is a
legitimate instantiation); the service oracles return fixed well-formed
responses. -/

def tcLen (s : String) : Nat := s.length

def svcContent : Nat → SvcOutcome := fun _ => SvcOutcome.ok (some "g") none

def fi0 : FuncInput := { name := "f", description := "g", parameter_list := [] }

def igPol : FuncPolicyVal := FuncPolicyVal.policy FunctionPolicy.IGNORE

def purePol : PolicyVal := PolicyVal.policy DataPolicy.PURE

/- C1 fixture: overview "ab" (2 tokens under tcLen), budget 1000, one
successful `add_message("cd", data="ef")`. -/

def cwC1 : CW := ContextWindow.init tcLen "ab" purePol "m" 1000 none

def outC1 : AddOut := add_message tcLen svcContent cwC1 "cd" (some "ef") purePol (some fi0) igPol

/-- Claim C1: "After every successful add_message call, the manager's
total_tokens equals the sum of token_count over all messages currently in the
compacted ledger."  The code violates this on the very first successful call:
`add_message` never adds the appended user and assistant messages' tokens to
`total_tokens` (it is only adjusted inside the compaction branch), and the
compacted-ledger role dicts carry no `token_count` at all.  After one
successful call `total_tokens` is still only the overview's 2 tokens while a
full re-scan of the three-message ledger gives 7. -/
theorem claim1_total_tokens_bug :
    outC1.result = Except.ok { model_response := some "g", function_values := none }
    ∧ outC1.state.messages.length = 3
    ∧ outC1.state.total_tokens = 2
    ∧ specLedgerTokenSum tcLen outC1.state.messages = 7
    ∧ outC1.state.total_tokens ≠ (specLedgerTokenSum tcLen outC1.state.messages : Int) := by
  decide

/- C3 fixture: one message dict per data policy, evaluated through the
compaction engine. -/

def cwFix : CW := ContextWindow.init tcLen "ov" purePol "m" 100 none

def fin0 : FunctionInfo := create_function_info "f" "g" []

def mdPure : MessageDict :=
  { user_content := "uc"
    data := some "dd"
    data_policy := purePol
    function_info := fin0
    function_policy := igPol
    token_count := 99 }

def mdRemove : MessageDict := { mdPure with data_policy := PolicyVal.policy DataPolicy.REMOVE }

def mdSumm : MessageDict := { mdPure with data_policy := PolicyVal.policy DataPolicy.SUMMARIZE }

/-- Claim C3: "under PURE the raw data is appended verbatim under a fixed
framing sentence, under REMOVE nothing is appended from the data, and under
SUMMARIZE only the summarization sub-flow's returned text is appended".
PURE behaves as claimed, but REMOVE and SUMMARIZE do not: REMOVE sets
`data_msg = None`, which passes the `data_msg != ""` guard, appends the
framing sentence with the text "None", and then raises TypeError in
`_token_count(None)`; SUMMARIZE dies in the sub-flow's
`summarization_messages.remove(-1)` (ValueError) before anything can be
appended. -/
theorem claim3_data_policy_bug :
    (message_dict_to_message tcLen svcContent cwFix mdPure).2.2
        = Except.ok ("uc Along with this message, the user sent the following data: dd.")
    ∧ (message_dict_to_message tcLen svcContent cwFix mdRemove).2.2
        = Except.error PyError.typeError
    ∧ (message_dict_to_message tcLen svcContent cwFix mdSumm).2.2
        = Except.error (PyError.valueError removeErrMsg) := by
  decide

/- C5 fixture: overview of 10 tokens, budget 5, so the very first
`add_message` fails window fitting — after the ledgers were appended to. -/

def cwC5 : CW := ContextWindow.init tcLen "aaaaaaaaaa" purePol "m" 5 none

def outC5 : AddOut := add_message tcLen svcContent cwC5 "hi" (some "d") purePol (some fi0) igPol

/-- Claim C5: "If an add_message call fails ..., both the enhanced and
compacted ledgers are left exactly as they were before the call."  The code
violates this: lines 56-58 append the user turn to both ledgers before window
fitting, and nothing rolls them back when `_fit_context_window` raises. -/
theorem claim5_no_rollback_bug :
    outC5.result = Except.error (PyError.valueError fitErrMsg)
    ∧ cwC5.messages.length = 1
    ∧ outC5.state.messages.length = 2
    ∧ cwC5.enhanced_messages.length = 0
    ∧ outC5.state.enhanced_messages.length = 1 := by
  decide

/- C8 fixture: a summarization call against a fresh instance whose service
returns a well-formed response. -/

def outC8 : CW × Except PyError String := generate_message_summary svcContent cwFix (some "x")

/-- Claim C8: "After every call to generate_message_summary, its message list
is restored to exactly the single seed system instruction."  The code
violates this: the restoration statement is
`self.summarization_messages.remove(-1)`, which raises ValueError (no element
of the list equals the integer -1) and leaves the appended request in place;
the function never returns normally. -/
theorem claim8_summarization_reset_bug :
    outC8.2 = Except.error (PyError.valueError removeErrMsg)
    ∧ cwFix.summarization_messages.length = 1
    ∧ outC8.1.summarization_messages.length = 2
    ∧ outC8.1.summarization_messages.getLast?
        = some (construct_role_dict "user" (some "Please summarize the following: x")) := by
  decide

/- C10 fixture: `add_message` with the `data` argument omitted (None). -/

def outC10 : AddOut := add_message tcLen svcContent cwFix "hi" none PolicyVal.pyNone none igPol

/-- Claim C10: "For every call to add_message in which the optional data
argument is omitted (None), the call still constructs and records the pending
turn: absent data contributes zero tokens and does not cause the operation to
fail."  The code violates this: line 56 evaluates `user_content + data`,
which raises TypeError for `data=None` (and `_token_count(None)` would raise
TypeError too), so the call fails and records nothing. -/
theorem claim10_none_data_bug :
    outC10.result = Except.error PyError.typeError
    ∧ outC10.state.enhanced_messages = []
    ∧ token_count tcLen none = Except.error PyError.typeError := by
  decide

/-- Claim C9: rendering a model function call.  With an empty arguments
object the fixed "attempted to call ... but did not provide any parameters"
message is returned (for any function name); with non-empty arguments one
clause per argument is emitted in service order, and the concrete example of
the claim — function `x` with arguments `{"filename": "a.py"}` — renders to
exactly "The model returned function parameters for the requested function
'x'. For parameter 'filename', the model generated 'a.py'." -/
theorem claim9_function_call_rendering :
    (∀ name : String,
      generate_function_description (some { name := name, arguments := [] })
        = some ("The model attempted to call the function " ++ apos ++ name ++ apos
            ++ " but did not provide any parameters."))
    ∧ (∀ (name : String) (args : List (String × String)), args ≠ [] →
      generate_function_description (some { name := name, arguments := args })
        = some (String.intercalate " "
            (("The model returned function parameters for the requested function "
                ++ apos ++ name ++ apos ++ ".")
              :: args.map (fun pv =>
                  "For parameter " ++ apos ++ pv.1 ++ apos ++ ", the model generated "
                    ++ apos ++ pv.2 ++ apos ++ "."))))
    ∧ generate_function_description (some { name := "x", arguments := [("filename", "a.py")] })
        = some ("The model returned function parameters for the requested function "
            ++ apos ++ "x" ++ apos ++ ". For parameter " ++ apos ++ "filename" ++ apos
            ++ ", the model generated " ++ apos ++ "a.py" ++ apos ++ ".") := by
  refine ⟨fun name => rfl, fun name args h => ?_, by decide⟩
  simp [generate_function_description, h]

/-- Claim C7: "For every enhanced message whose data_policy is not one of the
three known values (PURE, REMOVE, SUMMARIZE), compaction raises a fatal
configuration error rather than silently applying any default."  Confirmed:
the `else` branch of `_message_dict_to_message` raises
`ValueError("Did not pass a valid function policy!")` for every value outside
the three enum members (including the `None` that `add_message` stores when
no policy is passed). -/
theorem claim7_unrecognized_policy_raises (tc : String → Nat) (svc : Nat → SvcOutcome)
    (cw : CW) (md : MessageDict)
    (h : ∀ p : DataPolicy, md.data_policy ≠ PolicyVal.policy p) :
    (message_dict_to_message tc svc cw md).2.2
      = Except.error (PyError.valueError invalidPolicyMsg) := by
  unfold message_dict_to_message
  rcases hmd : md.data_policy with p | _ | s
  · exact absurd hmd (h p)
  · simp [hmd]
  · simp [hmd]

def mdBadPolicy : MessageDict := { mdPure with data_policy := PolicyVal.pyNone }

theorem claim7_unrecognized_policy_raises_witness :
    (∀ p : DataPolicy, mdBadPolicy.data_policy ≠ PolicyVal.policy p)
    ∧ (message_dict_to_message tcLen svcContent cwFix mdBadPolicy).2.2
        = Except.error (PyError.valueError invalidPolicyMsg) :=
  ⟨fun p hp => by simp [mdBadPolicy] at hp,
   claim7_unrecognized_policy_raises tcLen svcContent cwFix mdBadPolicy
     (fun p hp => by simp [mdBadPolicy] at hp)⟩

/- C2 fixture: overview of 10 tokens, budget 20.  Call 1 succeeds and leaves
a SUMMARIZE turn pending compaction; call 2 arrives with a newest turn of 100
tokens (overview + newest = 110 > 20, the claim's infeasibility condition). -/

def ovC2 : String := "overview-ten"

def tcC2 (s : String) : Nat :=
  if s = ovC2 then 10 else if s = "U2" then 100 else if s.length ≤ 2 then s.length else 0

def svcPlain : Nat → SvcOutcome := fun _ => SvcOutcome.ok (some "r") none

def cwC2 : CW := ContextWindow.init tcC2 ovC2 purePol "m" 20 none

def outC2a : AddOut :=
  add_message tcC2 svcPlain cwC2 "a" (some "b") (PolicyVal.policy DataPolicy.SUMMARIZE)
    (some fi0) igPol

def outC2b : AddOut :=
  add_message tcC2 svcPlain outC2a.state "U2" (some "") purePol (some fi0) igPol

/-- Claim C2 counterexample: the claim says that whenever the newest turn's
token count plus the overview's exceeds `max_tokens`, window fitting fails
with a fatal error *before any completion-service call is attempted*.  On the
second call of this run the infeasibility condition holds (100 + 10 > 20),
yet the compaction of the pending SUMMARIZE turn runs first: it attempts a
summarization-sub-flow service call (`calls_made` goes from 1 to 2) and the
call then fails with the sub-flow's ValueError — window fitting is never
reached and its budget error is never raised. -/
theorem claim2_counterexample :
    lastEnhTokenCount outC2b.state = some 100
    ∧ (100 : Int) + (outC2a.state.high_level_overview_tokens : Int) > outC2a.state.max_tokens
    ∧ outC2b.result = Except.error (PyError.valueError removeErrMsg)
    ∧ outC2b.result ≠ Except.error (PyError.valueError fitErrMsg)
    ∧ outC2a.state.calls_made = 1
    ∧ outC2b.state.calls_made = 2 := by
  decide

/-- Claim C2 as amended: for every `add_message` call that has no prior turn
to compact (the ledger holds at most the overview before the call, i.e. the
call is the conversation's first), if the newest turn's token count plus the
overview's exceeds `max_tokens` then window fitting fails with the fatal
ValueError and no completion-service call is attempted.  On later calls the
compaction step runs first and either fails or invokes the summarization
sub-flow's service call before window fitting is reached. -/
theorem claim2_amended (tc : String → Nat) (svc : Nat → SvcOutcome) (cw : CW)
    (uc d : String) (dp : PolicyVal) (fi : FuncInput) (fp : FuncPolicyVal)
    (hlen : cw.messages.length ≤ 1)
    (hbudget : cw.max_tokens <
      (cw.high_level_overview_tokens : Int) + ((tc uc + tc d + tc (strOfFuncInput fi) : Nat) : Int)) :
    (add_message tc svc cw uc (some d) dp (some fi) fp).result
        = Except.error (PyError.valueError fitErrMsg)
    ∧ (add_message tc svc cw uc (some d) dp (some fi) fp).state.calls_made = cw.calls_made := by
  have hskip : ¬ (3 ≤ (cw.messages
      ++ [Entry.dict (construct_role_dict "user" (some (uc ++ d)))]).length) := by
    simp only [List.length_append, List.length_cons, List.length_nil]
    omega
  have hlast : (cw.enhanced_messages ++ [EnhEntry.msg
      { user_content := uc
        data := some d
        data_policy := dp
        function_info := create_function_info fi.name fi.description fi.parameter_list
        function_policy := fp
        token_count := tc uc + tc d + tc (strOfFuncInput fi) }]).getLast?
      = some (EnhEntry.msg
      { user_content := uc
        data := some d
        data_policy := dp
        function_info := create_function_info fi.name fi.description fi.parameter_list
        function_policy := fp
        token_count := tc uc + tc d + tc (strOfFuncInput fi) }) := by
    simp
  have hcond : (cw.high_level_overview_tokens : Int)
      + ((tc uc + tc d + tc (strOfFuncInput fi) : Nat) : Int) > cw.max_tokens := by
    omega
  simp only [add_message, add_message_rest, compact_step, fit_context_window, hskip,
    if_false, hlast]
  rw [if_pos hcond]
  exact ⟨rfl, rfl⟩

theorem claim2_amended_witness :
    cwC5.messages.length ≤ 1
    ∧ cwC5.max_tokens < (cwC5.high_level_overview_tokens : Int)
        + ((tcLen "hi" + tcLen "d" + tcLen (strOfFuncInput fi0) : Nat) : Int)
    ∧ (add_message tcLen svcContent cwC5 "hi" (some "d") purePol (some fi0) igPol).result
        = Except.error (PyError.valueError fitErrMsg)
    ∧ (add_message tcLen svcContent cwC5 "hi" (some "d") purePol (some fi0) igPol).state.calls_made
        = cwC5.calls_made :=
  ⟨by decide, by decide,
   (claim2_amended tcLen svcContent cwC5 "hi" "d" purePol fi0 igPol (by decide) (by decide)).1,
   (claim2_amended tcLen svcContent cwC5 "hi" "d" purePol fi0 igPol (by decide) (by decide)).2⟩

/- C4 fixture: overview of 40 tokens, budget 50, first call with a newest
turn of 4 tokens.  The feasibility check passes (40 + 4 <= 50) but
`remaining = 50 - 40 - 40 = -30 < 0`, so the scan loop runs. -/

def ovC4 : String := "OV-forty"

def tcC4 (s : String) : Nat := if s = ovC4 then 40 else if s.length ≤ 3 then s.length else 1

def cwC4 : CW := ContextWindow.init tcC4 ovC4 purePol "m" 50 none

def outC4 : AddOut := add_message tcC4 svcPlain cwC4 "ab" (some "c") purePol (some fi0) igPol

/-- Claim C4: the claim says that with `remaining < 0` the fitter's index "is
found by scanning from the oldest non-overview message forward, accumulating
token counts, and stopping at the first index whose accumulated sum does not
exceed |remaining|".  The code cannot do this: its loop enumerates
`self.messages` from index 0 — the overview included — and reads a
`token_count` key that the `{role, content}` ledger dicts never carry, so it
raises KeyError on the very first entry instead of returning an index.  On
this reachable input (`remaining = -30`), the claim's scan over the ledger's
re-scanned token counts `[40, 3]` would return index 1, while `add_message`
dies with KeyError before any service call (`calls_made = 0`). -/
theorem claim4_window_scan_bug :
    outC4.result = Except.error PyError.keyError
    ∧ outC4.state.max_tokens - outC4.state.total_tokens
        - (outC4.state.high_level_overview_tokens : Int) = -30
    ∧ outC4.state.messages.map (entrySpecTokens tcC4) = [40, 3]
    ∧ claimFitScan [40, 3] 30 = 1
    ∧ outC4.state.calls_made = 0 := by
  decide

/- Helper lemmas for the overview-permanence invariant (claim C6). -/

theorem head?_append_singleton {α : Type} {l : List α} {a : α} (x : α)
    (h : l.head? = some a) : (l ++ [x]).head? = some a := by
  cases l with
  | nil => simp at h
  | cons b t => simpa using h

theorem head?_set_of_pos {α : Type} {l : List α} {a : α} (n : Nat) (v : α)
    (hn : 1 ≤ n) (h : l.head? = some a) : (l.set n v).head? = some a := by
  cases l with
  | nil => simp at h
  | cons b t =>
    cases n with
    | zero => omega
    | succ k => simpa using h

theorem call_openai_ledgers (svc : Nat → SvcOutcome) (cw : CW) :
    (call_openai svc cw).1.messages = cw.messages
    ∧ (call_openai svc cw).1.enhanced_messages = cw.enhanced_messages := by
  unfold call_openai
  cases h : svc cw.calls_made <;> simp

theorem generate_message_summary_ledgers (svc : Nat → SvcOutcome) (cw : CW)
    (data : Option String) :
    (generate_message_summary svc cw data).1.messages = cw.messages
    ∧ (generate_message_summary svc cw data).1.enhanced_messages = cw.enhanced_messages := by
  unfold generate_message_summary
  have h := call_openai_ledgers svc { cw with summarization_messages :=
    cw.summarization_messages
      ++ [construct_role_dict "user" (some ("Please summarize the following: " ++ pyStrOfOpt data))] }
  simp only [] at h
  rcases hco : call_openai svc { cw with summarization_messages :=
    cw.summarization_messages
      ++ [construct_role_dict "user" (some ("Please summarize the following: " ++ pyStrOfOpt data))] }
    with ⟨cw2, r⟩
  rw [hco] at h
  dsimp only
  rw [hco]
  cases r <;> simpa using h

theorem message_dict_to_message_ledgers (tc : String → Nat) (svc : Nat → SvcOutcome)
    (cw : CW) (md0 : MessageDict) :
    (message_dict_to_message tc svc cw md0).1.messages = cw.messages
    ∧ (message_dict_to_message tc svc cw md0).1.enhanced_messages = cw.enhanced_messages := by
  rcases hdp : md0.data_policy with p | _ | s
  · cases p with
    | PURE => simp [message_dict_to_message, hdp]
    | REMOVE => simp [message_dict_to_message, hdp]
    | SUMMARIZE =>
      have h := generate_message_summary_ledgers svc cw md0.data
      rcases hg : generate_message_summary svc cw md0.data with ⟨cw2, r⟩
      rw [hg] at h
      simp only [Prod.fst] at h
      cases r <;> simp [message_dict_to_message, hdp, hg] <;> exact h
  · simp [message_dict_to_message, hdp]
  · simp [message_dict_to_message, hdp]

theorem compact_step_inv (tc : String → Nat) (svc : Nat → SvcOutcome) (cw : CW) (a : Entry)
    (hlen : cw.enhanced_messages.length + 1 ≤ cw.messages.length)
    (hhead : cw.messages.head? = some a) :
    (compact_step tc svc cw).1.messages.head? = some a
    ∧ (compact_step tc svc cw).1.enhanced_messages.length + 1
        ≤ (compact_step tc svc cw).1.messages.length := by
  unfold compact_step
  by_cases h3 : 3 ≤ cw.messages.length
  · rw [if_pos h3]
    by_cases he : 3 ≤ cw.enhanced_messages.length
    · rw [if_pos he]
      rcases hprev : cw.enhanced_messages.getD (cw.enhanced_messages.length - 3) defaultEnhEntry
        with m | ⟨mr, fv⟩
      · -- EnhEntry.msg m: the compaction body runs
        have hm := message_dict_to_message_ledgers tc svc
          { cw with total_tokens := cw.total_tokens - (m.token_count : Int) } m
        rcases hmd : message_dict_to_message tc svc
            { cw with total_tokens := cw.total_tokens - (m.token_count : Int) } m
          with ⟨cw2, m2, r⟩
        rw [hmd] at hm
        simp only [Prod.fst] at hm
        obtain ⟨hm1, hm2⟩ := hm
        cases r with
        | error e =>
          dsimp only
          rw [hmd]
          constructor
          · simpa [hm1] using hhead
          · simp [hm1, hm2, List.length_set]
            omega
        | ok s =>
          dsimp only
          rw [hmd]
          constructor
          · simp only []
            apply head?_set_of_pos
            · rw [hm1]
              omega
            · simpa [hm1] using hhead
          · simp [hm1, hm2, List.length_set]
            omega
      · -- EnhEntry.res: KeyError, state unchanged
        exact ⟨hhead, hlen⟩
    · rw [if_neg he]
      exact ⟨hhead, hlen⟩
  · rw [if_neg h3]
    exact ⟨hhead, hlen⟩

theorem add_message_rest_inv (tc : String → Nat) (svc : Nat → SvcOutcome) (cw : CW)
    (a : Entry)
    (hlen : cw.enhanced_messages.length + 1 ≤ cw.messages.length)
    (hhead : cw.messages.head? = some a) :
    (add_message_rest tc svc cw).state.messages.head? = some a
    ∧ (add_message_rest tc svc cw).state.enhanced_messages.length + 1
        ≤ (add_message_rest tc svc cw).state.messages.length := by
  unfold add_message_rest
  have hc := compact_step_inv tc svc cw a hlen hhead
  rcases hcs : compact_step tc svc cw with ⟨cwC, rc⟩
  rw [hcs] at hc
  simp only [Prod.fst] at hc
  obtain ⟨hc1, hc2⟩ := hc
  cases rc with
  | error e => dsimp only; exact ⟨hc1, hc2⟩
  | ok u =>
    dsimp only
    cases hfit : fit_context_window cwC with
    | error e => dsimp only; exact ⟨hc1, hc2⟩
    | ok idx =>
      dsimp only
      have hco := call_openai_ledgers svc cwC
      rcases hcall : call_openai svc cwC with ⟨cwD, rr⟩
      rw [hcall] at hco
      simp only [Prod.fst] at hco
      obtain ⟨hco1, hco2⟩ := hco
      cases rr with
      | error e =>
        dsimp only
        exact ⟨by rw [hco1]; exact hc1, by rw [hco1, hco2]; exact hc2⟩
      | ok resp =>
        dsimp only
        constructor
        · apply head?_append_singleton
          rw [hco1]
          exact hc1
        · simp only [List.length_append, List.length_cons, List.length_nil]
          rw [hco1, hco2]
          omega

theorem add_message_inv (tc : String → Nat) (svc : Nat → SvcOutcome) (cw : CW)
    (a : Entry) (uc : String) (dt : Option String) (dp : PolicyVal)
    (fi : Option FuncInput) (fp : FuncPolicyVal)
    (hlen : cw.enhanced_messages.length + 1 ≤ cw.messages.length)
    (hhead : cw.messages.head? = some a) :
    (add_message tc svc cw uc dt dp fi fp).state.messages.head? = some a
    ∧ (add_message tc svc cw uc dt dp fi fp).state.enhanced_messages.length + 1
        ≤ (add_message tc svc cw uc dt dp fi fp).state.messages.length := by
  cases dt with
  | none => exact ⟨hhead, hlen⟩
  | some d =>
    cases fi with
    | none =>
      unfold add_message
      dsimp only
      refine ⟨head?_append_singleton _ hhead, ?_⟩
      simp only [List.length_append, List.length_cons, List.length_nil]
      omega
    | some f =>
      unfold add_message
      dsimp only
      apply add_message_rest_inv
      · simp only [List.length_append, List.length_cons, List.length_nil]
        omega
      · exact head?_append_singleton _ hhead

theorem runAdds_inv (tc : String → Nat) (svc : Nat → SvcOutcome)
    (calls : List AddArgs) (cw : CW) (a : Entry)
    (hlen : cw.enhanced_messages.length + 1 ≤ cw.messages.length)
    (hhead : cw.messages.head? = some a) :
    (runAdds tc svc cw calls).messages.head? = some a
    ∧ (runAdds tc svc cw calls).enhanced_messages.length + 1
        ≤ (runAdds tc svc cw calls).messages.length := by
  induction calls generalizing cw with
  | nil => exact ⟨hhead, hlen⟩
  | cons c rest ih =>
    have h := add_message_inv tc svc cw a c.user_content c.data c.data_policy
      c.function_info c.function_policy hlen hhead
    exact ih (add_message_args tc svc cw c).state h.2 h.1

/-- Claim C6: "the message at index 0 of the compacted ledger is always the
system high-level overview: it is never replaced by compaction and never
evicted by the window fitter for the lifetime of the conversation."
Confirmed: for every tokenizer, service oracle, configuration and sequence of
`add_message` calls (successful or failed), the head of `self.messages` is
still the system overview dict installed by `__init__`.  Compaction can only
overwrite `self.messages[len-3]`, and that index is at least 1 whenever the
guards `len(messages) >= 3` and `len(enhanced_messages) >= 3` both pass,
because the ledgers satisfy `len(enhanced) + 1 <= len(messages)` throughout;
the window fitter never mutates the ledger at all. -/
theorem claim6_overview_permanence (tc : String → Nat) (svc : Nat → SvcOutcome)
    (ov : String) (dp : PolicyVal) (mn : String) (mt : Int) (ss : Option String)
    (calls : List AddArgs) :
    (runAdds tc svc (ContextWindow.init tc ov dp mn mt ss) calls).messages.head?
      = some (Entry.dict (construct_role_dict "system" (some ov))) :=
  (runAdds_inv tc svc calls (ContextWindow.init tc ov dp mn mt ss)
    (Entry.dict (construct_role_dict "system" (some ov)))
    (by simp [ContextWindow.init]) (by simp [ContextWindow.init])).1
